import Mathlib

/-!
Verification development for the xyflow-prototype workflow editor
(frontend/src/FlowCanvas.js and frontend/src/App.js).

The development shallowly embeds the canvas state and its handlers:
the socket event handlers (node_processing, execution_complete), the
drop handler (onDrop), the parameter-modal submit path
(validateRequiredFields / handleParamSubmit), the save payload
(saveWorkflow), and the node id generator.  JavaScript JSON.parse is
embedded as a fuel-based recursive-descent well-formedness parser over
the JSON grammar.  Two variants of FlowCanvas.js exist in the
repository; they differ only in that one guards handleParamSubmit with
validateRequiredFields.  The embedding follows the validated variant;
all other handlers are identical in both files.
-/

namespace Xyflow

/-- JavaScript values reachable in this program: the results of
JSON.parse (null, booleans, numbers, strings, arrays, objects) plus
undefined, which property access on a non-object produces. Numeric
tokens are kept as their source text; no claim computes with them. -/
inductive Json where
  | null : Json
  | bool : Bool → Json
  | num : String → Json
  | str : String → Json
  | arr : List Json → Json
  | obj : List (String × Json) → Json
  | jsUndefined : Json

/-- Left brace character, written by code point. -/
def lbrace : Char := Char.ofNat 123

/-- Right brace character, written by code point. -/
def rbrace : Char := Char.ofNat 125

/-- JSON insignificant whitespace (space, tab, line feed, carriage return). -/
def isJsonWs (c : Char) : Bool :=
  c = ' ' || c = '\t' || c = '\n' || c = '\r'

/-- Drop leading JSON whitespace. -/
def skipWs : List Char → List Char
  | [] => []
  | c :: cs => if isJsonWs c then skipWs cs else c :: cs

/-- Hexadecimal digit test, for \u escapes. -/
def isHexDigit (c : Char) : Bool :=
  ('0' ≤ c && c ≤ '9') || ('a' ≤ c && c ≤ 'f') || ('A' ≤ c && c ≤ 'F')

/-- Value of a hexadecimal digit. -/
def hexVal (c : Char) : Nat :=
  if '0' ≤ c && c ≤ '9' then c.toNat - 48
  else if 'a' ≤ c && c ≤ 'f' then c.toNat - 87
  else c.toNat - 55

/-- Body of a JSON string after the opening quote: ordinary characters,
the two-character escapes, and \uXXXX.  Returns the decoded string and
the rest of the input. -/
def parseStringBody : Nat → List Char → List Char → Except String (String × List Char)
  | 0, _, _ => .error "parser fuel exhausted"
  | _, _, [] => .error "unterminated string"
  | fuel + 1, acc, c :: cs =>
    if c = '"' then .ok (String.mk acc.reverse, cs)
    else if c = '\\' then
      match cs with
      | [] => .error "unterminated string escape"
      | e :: cs2 =>
        if e = '"' || e = '\\' || e = '/' then parseStringBody fuel (e :: acc) cs2
        else if e = 'b' then parseStringBody fuel (Char.ofNat 8 :: acc) cs2
        else if e = 'f' then parseStringBody fuel (Char.ofNat 12 :: acc) cs2
        else if e = 'n' then parseStringBody fuel ('\n' :: acc) cs2
        else if e = 'r' then parseStringBody fuel ('\r' :: acc) cs2
        else if e = 't' then parseStringBody fuel ('\t' :: acc) cs2
        else if e = 'u' then
          match cs2 with
          | h1 :: h2 :: h3 :: h4 :: cs3 =>
            if isHexDigit h1 && isHexDigit h2 && isHexDigit h3 && isHexDigit h4 then
              parseStringBody fuel
                (Char.ofNat (hexVal h1 * 4096 + hexVal h2 * 256 + hexVal h3 * 16 + hexVal h4)
                  :: acc) cs3
            else .error "bad unicode escape"
          | _ => .error "bad unicode escape"
        else .error "bad escape character"
    else if c.toNat < 32 then .error "control character in string"
    else parseStringBody fuel (c :: acc) cs

/-- Optional fraction part of a JSON number. -/
def parseFrac : List Char → Except String (List Char)
  | '.' :: cs =>
    let p := cs.span Char.isDigit
    if p.1.isEmpty then .error "expected digit after decimal point" else .ok p.2
  | cs => .ok cs

/-- Optional exponent part of a JSON number. -/
def parseExp : List Char → Except String (List Char)
  | [] => .ok []
  | c :: cs =>
    if c = 'e' || c = 'E' then
      let cs2 := match cs with
        | s :: t => if s = '+' || s = '-' then t else s :: t
        | [] => []
      let p := cs2.span Char.isDigit
      if p.1.isEmpty then .error "expected digit in exponent" else .ok p.2
    else .ok (c :: cs)

/-- Integer part of a JSON number after an optional sign: a lone 0, or a
nonzero digit followed by digits. -/
def parseIntPart : List Char → Except String (List Char)
  | [] => .error "expected digit"
  | c :: cs =>
    if c = '0' then .ok cs
    else if c.isDigit then .ok (cs.span Char.isDigit).2
    else .error "expected digit"

/-- Whole JSON number after an optional leading minus sign. -/
def parseNumberTail (cs : List Char) : Except String (List Char) :=
  match parseIntPart cs with
  | .error e => .error e
  | .ok cs1 =>
    match parseFrac cs1 with
    | .error e => .error e
    | .ok cs2 => parseExp cs2

mutual

/-- Recursive-descent parser for one JSON value, following the grammar
that JSON.parse accepts.  Leading whitespace must already be skipped. -/
def parseValue : Nat → List Char → Except String (Json × List Char)
  | 0, _ => .error "parser fuel exhausted"
  | _, [] => .error "unexpected end of JSON input"
  | fuel + 1, c :: cs =>
    if c = '"' then
      match parseStringBody (fuel + 1) [] cs with
      | .error e => .error e
      | .ok (s, rest) => .ok (.str s, rest)
    else if c = lbrace then
      match skipWs cs with
      | d :: ds =>
        if d = rbrace then .ok (.obj [], ds)
        else parseMembers fuel [] (d :: ds)
      | [] => .error "unexpected end of JSON input"
    else if c = '[' then
      match skipWs cs with
      | d :: ds =>
        if d = ']' then .ok (.arr [], ds)
        else parseElems fuel [] (d :: ds)
      | [] => .error "unexpected end of JSON input"
    else if c = 't' then
      match cs with
      | 'r' :: 'u' :: 'e' :: rest => .ok (.bool true, rest)
      | _ => .error "unexpected token"
    else if c = 'f' then
      match cs with
      | 'a' :: 'l' :: 's' :: 'e' :: rest => .ok (.bool false, rest)
      | _ => .error "unexpected token"
    else if c = 'n' then
      match cs with
      | 'u' :: 'l' :: 'l' :: rest => .ok (.null, rest)
      | _ => .error "unexpected token"
    else if c = '-' then
      match parseNumberTail cs with
      | .error e => .error e
      | .ok rest => .ok (.num "number", rest)
    else if c.isDigit then
      match parseNumberTail (c :: cs) with
      | .error e => .error e
      | .ok rest => .ok (.num "number", rest)
    else .error "unexpected token"

/-- Members of a JSON object after the opening brace, first member next
(leading whitespace skipped). -/
def parseMembers : Nat → List (String × Json) → List Char → Except String (Json × List Char)
  | 0, _, _ => .error "parser fuel exhausted"
  | fuel + 1, acc, input =>
    match input with
    | '"' :: cs =>
      match parseStringBody (fuel + 1) [] cs with
      | .error e => .error e
      | .ok (key, rest1) =>
        match skipWs rest1 with
        | ':' :: rest2 =>
          match parseValue fuel (skipWs rest2) with
          | .error e => .error e
          | .ok (v, rest3) =>
            match skipWs rest3 with
            | ',' :: rest4 => parseMembers fuel ((key, v) :: acc) (skipWs rest4)
            | d :: rest4 =>
              if d = rbrace then .ok (.obj ((key, v) :: acc).reverse, rest4)
              else .error "expected comma or closing brace in object"
            | [] => .error "unexpected end of JSON input"
        | _ => .error "expected colon in object"
    | _ => .error "expected string key in object"

/-- Elements of a JSON array after the opening bracket, first element
next (leading whitespace skipped). -/
def parseElems : Nat → List Json → List Char → Except String (Json × List Char)
  | 0, _, _ => .error "parser fuel exhausted"
  | fuel + 1, acc, input =>
    match parseValue fuel input with
    | .error e => .error e
    | .ok (v, rest1) =>
      match skipWs rest1 with
      | ',' :: rest2 => parseElems fuel (v :: acc) (skipWs rest2)
      | ']' :: rest2 => .ok (.arr (v :: acc).reverse, rest2)
      | _ => .error "expected comma or closing bracket in array"

end

/-- Embedding of JavaScript JSON.parse restricted to what the program
observes: success with the parsed value, or failure with a message (the
thrown SyntaxError).  The fuel is ample for any input of this length. -/
def jsonParse (s : String) : Except String Json :=
  match parseValue (2 * s.length + 2) (skipWs s.data) with
  | .error e => .error e
  | .ok (v, rest) =>
    match skipWs rest with
    | [] => .ok v
    | _ => .error "unexpected non-whitespace character after JSON data"

/-- Screen or flow coordinates of a node.  No claim computes with
coordinates, so integer components suffice. -/
structure Position where
  x : Int
  y : Int
deriving DecidableEq

/-- Per-node inline style.  The program reads and writes only
backgroundColor; none models the CSS value undefined. -/
structure NodeStyle where
  backgroundColor : Option String

/-- Node parameter map, as assembled by the parameter modal: an object
whose values are the strings typed into the inputs.  JavaScript object
lookup on a missing key gives undefined, modelled as none. -/
def Params := List (String × String)

/-- Lookup of params[k]: the value stored under k, or none. -/
def paramGet : List (String × String) → String → Option String
  | [], _ => none
  | (k2, v) :: rest, k => if k2 = k then some v else paramGet rest k

/-- JavaScript truthiness test for params[k]: undefined and the empty
string are falsy (the only values a text input can hold). -/
def falsyParam (o : Option String) : Bool :=
  match o with
  | none => true
  | some s => s = ""

/-- JavaScript expression params[k] || d for string-or-undefined values:
the stored value unless it is falsy, else the default d. -/
def paramOr (o : Option String) (d : String) : String :=
  match o with
  | none => d
  | some s => if s = "" then d else s

/-- Payload of a node: data.label (the value of tool.name at drop time,
any JavaScript value) and data.parameters. -/
structure NodeData where
  label : Json
  parameters : List (String × String)

/-- One React Flow node as this program builds it in onDrop:
id, type, data, position, and the style written by the status handlers. -/
structure Node where
  id : String
  type : String
  data : NodeData
  position : Position
  style : NodeStyle

/-- One React Flow edge.  Only its presence in the saved document
matters to the claims; onConnect delegates edge construction to the
external @xyflow/react addEdge helper, which is not part of this
repository's sources. -/
structure Edge where
  id : String
  source : String
  target : String

/-- Component state of FlowCanvas: the useState / useNodesState /
useEdgesState cells the handlers read and write. -/
structure CanvasState where
  nodes : List Node
  edges : List Edge
  input : String
  result : String
  showModal : Bool
  selectedNode : Option Node
  nodeParams : List (String × String)

/-- Strict equality toolName === lit for a JavaScript value against a
string literal, as used by validateRequiredFields. -/
def jsonIsStr (j : Json) (lit : String) : Bool :=
  match j with
  | .str s => s = lit
  | _ => false

/-- Last-wins member lookup on a parsed JSON object, matching the way
JSON.parse resolves duplicate keys. -/
def objGetLast : List (String × Json) → String → Option Json
  | [], _ => none
  | (k2, v) :: rest, k =>
    match objGetLast rest k with
    | some r => some r
    | none => if k2 = k then some v else none

/-- JavaScript property access tool.name on a parsed JSON value: a
member of an object, undefined on any other non-null value; access on
null throws, which the caller handles. -/
def jsMember (j : Json) (k : String) : Json :=
  match j with
  | .obj kvs =>
    match objGetLast kvs k with
    | some v => v
    | none => .jsUndefined
  | _ => .jsUndefined

/-- Handler for the node_processing socket event: the node whose id
matches gets its backgroundColor set to yellow for processing,
lightgreen for completed, and red for anything else; every other node
is returned unchanged. -/
def onNodeProcessing (nodeId status : String) (nds : List Node) : List Node :=
  nds.map fun node =>
    if node.id = nodeId then
      { node with
        style := { node.style with
          backgroundColor :=
            some (if status = "processing" then "yellow"
              else if status = "completed" then "lightgreen" else "red") } }
    else node

/-- Handler for the execution_complete socket event: store the result
and clear every node's backgroundColor (set to undefined). -/
def onExecutionComplete (result : String) (s : CanvasState) : CanvasState :=
  { s with
    result := result
    nodes := s.nodes.map fun node =>
      { node with style := { node.style with backgroundColor := none } } }

/-- Drop handler.  getData on the transfer key yields the empty string
when the key is absent, in which case the handler returns at once.
Otherwise JSON.parse runs on the payload; a parse failure propagates as
a thrown SyntaxError (the error case), as does the TypeError from
reading tool.name when the payload parsed to null.  On success a node
is appended with a fresh id, type default, label tool.name, empty
parameters, and the drop position. -/
def onDrop (toolData : String) (pos : Position) (uniqueId : String)
    (s : CanvasState) : Except String CanvasState :=
  if toolData = "" then .ok s
  else
    match jsonParse toolData with
    | .error e => .error ("SyntaxError: " ++ e)
    | .ok .null => .error "TypeError: cannot read properties of null"
    | .ok tool =>
      .ok { s with
        nodes := s.nodes ++
          [{ id := uniqueId
             type := "default"
             data := { label := jsMember tool "name", parameters := [] }
             position := pos
             style := { backgroundColor := none } }] }

/-- Per-tool validation run by handleParamSubmit in the validated
variant of FlowCanvas.js: for llm_tool the apiKey must be truthy; for
fetch_from_rest_api_tool the headers and body fields (defaulted to an
empty object literal when falsy) must each survive JSON.parse.  The
error carries the alert text shown to the user. -/
def validateRequiredFields (params : List (String × String)) (toolName : Json) :
    Except String Unit :=
  match
    (if jsonIsStr toolName "llm_tool" then
      (if falsyParam (paramGet params "apiKey") then
        Except.error "API Key is required for llm_tool"
      else Except.ok ())
    else Except.ok ()) with
  | .error e => .error e
  | .ok () =>
    if jsonIsStr toolName "fetch_from_rest_api_tool" then
      let headers := paramOr (paramGet params "headers") (String.mk [lbrace, rbrace])
      let body := paramOr (paramGet params "body") (String.mk [lbrace, rbrace])
      match jsonParse headers with
      | .error e => .error ("Invalid JSON in headers: " ++ e)
      | .ok _ =>
        match jsonParse body with
        | .error e => .error ("Invalid JSON in body: " ++ e)
        | .ok _ => .ok ()
    else .ok ()

/-- Outcome of one handleParamSubmit call: the component state after
the handler and the alert message when validation rejected the draft. -/
structure SubmitOutcome where
  state : CanvasState
  alertMsg : Option String

/-- Submit handler of the parameter modal (validated variant).  Reading
selectedNode.data.label throws when no node is selected.  On validation
failure the handler alerts and returns with the state untouched: the
modal stays open and the draft is kept.  On success the selected node's
parameters are replaced by the draft, the modal closes, and the
selection and draft are cleared. -/
def handleParamSubmit (s : CanvasState) : Except String SubmitOutcome :=
  match s.selectedNode with
  | none => .error "TypeError: cannot read properties of null"
  | some sel =>
    match validateRequiredFields s.nodeParams sel.data.label with
    | .error msg => .ok { state := s, alertMsg := some msg }
    | .ok () =>
      .ok { state :=
              { s with
                nodes := s.nodes.map fun node =>
                  if node.id = sel.id then
                    { node with data := { node.data with parameters := s.nodeParams } }
                  else node
                showModal := false
                selectedNode := none
                nodeParams := [] }
            alertMsg := none }

/-- Request body posted by saveWorkflow: the fixed workflow id together
with the nodes and edges arrays exactly as held in component state. -/
structure WorkflowPayload where
  id : String
  nodes : List Node
  edges : List Edge

/-- Body of the save-workflow POST. -/
def saveWorkflowBody (s : CanvasState) : WorkflowPayload :=
  { id := "workflow1", nodes := s.nodes, edges := s.edges }

/-- Node id generator of onDrop, Date.now() + "-" + random suffix: the
timestamp rendered in decimal, a dash, and the base-36 fractional
digits that Math.random().toString(36).substr(2, 9) produced. -/
def uniqueIdOf (timestamp : Nat) (randSuffix : String) : String :=
  Nat.repr timestamp ++ "-" ++ randSuffix

/-- Ids generated over a session, one creation per observed
(timestamp, random suffix) pair. -/
def sessionIds (creations : List (Nat × String)) : List String :=
  creations.map fun c => uniqueIdOf c.1 c.2

/-- Demonstration node used by the concrete witnesses. -/
def demoNode : Node :=
  { id := "n1"
    type := "default"
    data := { label := Json.str "search_tool", parameters := [] }
    position := { x := 100, y := 100 }
    style := { backgroundColor := none } }

/-- Demonstration canvas state holding one idle node. -/
def demoState : CanvasState :=
  { nodes := [demoNode]
    edges := []
    input := ""
    result := ""
    showModal := false
    selectedNode := none
    nodeParams := [] }

/-- Demonstration state after the executor reported the node as
processing. -/
def demoStateAfterProcessing : CanvasState :=
  { demoState with nodes := onNodeProcessing "n1" "processing" demoState.nodes }

/-- A drag payload that is not well-formed JSON. -/
def malformedPayload : String := String.mk [lbrace] ++ "not json"


/-- Helper: the JavaScript default expression o || d yields the default
when the stored value is falsy. -/
theorem paramOr_falsy (o : Option String) (d : String) (h : falsyParam o = true) :
    paramOr o d = d := by
  rcases o with _ | v
  · rfl
  · simp only [falsyParam, decide_eq_true_eq] at h
    simp [paramOr, h]

/-- Helper: the JavaScript default expression o || d yields the stored
value when it is a non-empty string. -/
theorem paramOr_truthy (o : Option String) (d v : String) (h : o = some v)
    (hne : v ≠ "") : paramOr o d = v := by
  subst h
  simp [paramOr, hne]

/-- Claim C2 (confirmed): on execution_complete the handler stores the
event's result as the run's final output and clears every present
node's runtime status overlay, whatever it was before and whether or
not the node ever received a node_processing event. -/
theorem execution_complete_stores_result_and_resets_all
    (s : CanvasState) (result : String) :
    (onExecutionComplete result s).result = result ∧
    ∀ (i : Nat) (n : Node), s.nodes[i]? = some n →
      (onExecutionComplete result s).nodes[i]? =
        some { n with style := { n.style with backgroundColor := none } } := by
  refine ⟨rfl, ?_⟩
  intro i n h
  simp [onExecutionComplete, List.getElem?_map, h]

/-- Witness for C2 at a concrete one-node state whose node was left
yellow by a node_processing event. -/
theorem execution_complete_stores_result_and_resets_all_witness :
    (onExecutionComplete "done" demoStateAfterProcessing).result = "done" ∧
    (onExecutionComplete "done" demoStateAfterProcessing).nodes[0]? =
      some { demoNode with style := { backgroundColor := none } } :=
  ⟨(execution_complete_stores_result_and_resets_all demoStateAfterProcessing "done").1,
    (execution_complete_stores_result_and_resets_all demoStateAfterProcessing "done").2 0
      { demoNode with style := { backgroundColor := some "yellow" } } rfl⟩

/-- Claim C3 (confirmed): a node_processing event whose nodeId matches
no node in the graph leaves the node list exactly unchanged; the
handler is a total function, so nothing is thrown. -/
theorem node_processing_unknown_id_noop (nds : List Node) (nodeId status : String) :
    (∀ n ∈ nds, n.id ≠ nodeId) → onNodeProcessing nodeId status nds = nds := by
  induction nds with
  | nil => intro _; rfl
  | cons a t ih =>
    intro h
    have ha : a.id ≠ nodeId := h a (List.mem_cons_self a t)
    have ih2 := ih fun n hn => h n (List.mem_cons_of_mem a hn)
    simp only [onNodeProcessing, List.map_cons] at ih2 ⊢
    rw [if_neg ha, ih2]

/-- Witness for C3: a processing event for an absent id leaves the
demonstration graph untouched. -/
theorem node_processing_unknown_id_noop_witness :
    onNodeProcessing "ghost" "processing" demoState.nodes = demoState.nodes :=
  node_processing_unknown_id_noop demoState.nodes "ghost" "processing"
    (by intro n hn; simp [demoState] at hn; subst hn; decide)

/-- Claim C10 (confirmed): a node_processing event for a present node
with any status other than processing and completed paints exactly that
node red; the node keeps its id, position and data, and every other
node is returned unchanged. -/
theorem node_processing_other_status_marks_red (nds : List Node)
    (nodeId status : String)
    (h1 : status ≠ "processing") (h2 : status ≠ "completed") :
    ∀ (i : Nat) (n : Node), nds[i]? = some n →
      (onNodeProcessing nodeId status nds)[i]? =
        some (if n.id = nodeId then
          { n with style := { n.style with backgroundColor := some "red" } }
        else n) := by
  intro i n h
  simp only [onNodeProcessing, List.getElem?_map, h, Option.map_some']
  by_cases hid : n.id = nodeId <;> simp [hid, h1, h2]

/-- Witness for C10 at the demonstration node and the unrecognized
status string weird. -/
theorem node_processing_other_status_marks_red_witness :
    (onNodeProcessing "n1" "weird" demoState.nodes)[0]? =
      some (if demoNode.id = "n1" then
        { demoNode with style := { demoNode.style with backgroundColor := some "red" } }
      else demoNode) :=
  node_processing_other_status_marks_red demoState.nodes "n1" "weird"
    (by decide) (by decide) 0 demoNode rfl

/-- Claim C1 (confirmed): submitting the parameter editor for a node
whose tool is llm_tool with an absent or empty apiKey makes submit fail
with the missing-required-field alert while returning the component
state exactly as it was: the modal stays open, the draft parameter
buffer survives, and no node's stored parameters change. -/
theorem llm_tool_missing_api_key_submit_fails (s : CanvasState) (sel : Node)
    (hsel : s.selectedNode = some sel)
    (hlab : sel.data.label = Json.str "llm_tool")
    (hkey : paramGet s.nodeParams "apiKey" = none ∨
      paramGet s.nodeParams "apiKey" = some "") :
    handleParamSubmit s =
      .ok { state := s, alertMsg := some "API Key is required for llm_tool" } := by
  have hfals : falsyParam (paramGet s.nodeParams "apiKey") = true := by
    rcases hkey with h | h <;> simp [falsyParam, h]
  simp [handleParamSubmit, hsel, validateRequiredFields, hlab, jsonIsStr, hfals]

/-- Witness state for C1: editing an llm_tool node with an empty apiKey
draft while the modal is open. -/
def llmState : CanvasState :=
  { nodes := [{ demoNode with data := { label := Json.str "llm_tool", parameters := [] } }]
    edges := []
    input := ""
    result := ""
    showModal := true
    selectedNode :=
      some { demoNode with data := { label := Json.str "llm_tool", parameters := [] } }
    nodeParams := [("apiKey", "")] }

/-- Witness theorem for C1 at the concrete llm_tool editing state. -/
theorem llm_tool_missing_api_key_submit_fails_witness :
    handleParamSubmit llmState =
      .ok { state := llmState, alertMsg := some "API Key is required for llm_tool" } :=
  llm_tool_missing_api_key_submit_fails llmState
    { demoNode with data := { label := Json.str "llm_tool", parameters := [] } }
    rfl rfl (Or.inr rfl)

/-- Claim C4 (confirmed): for a fetch_from_rest_api_tool node, a
non-empty headers draft that fails JSON parsing makes submit fail with
the malformed-field alert naming headers and carrying the parse error,
leaving the state untouched; a non-empty body draft that fails JSON
parsing makes submit fail naming body whenever the headers check passed
(headers empty or valid JSON, including valid non-empty headers); when
both checks pass validation succeeds; and an empty (absent or blank)
headers or body field always passes its own check, since the falsy
field is replaced by an empty object literal, which parses. -/
theorem fetch_tool_malformed_field_submit_fails (s : CanvasState) (sel : Node)
    (hsel : s.selectedNode = some sel)
    (hlab : sel.data.label = Json.str "fetch_from_rest_api_tool") :
    (∀ (hs e : String), paramGet s.nodeParams "headers" = some hs → hs ≠ "" →
      jsonParse hs = .error e →
      handleParamSubmit s =
        .ok { state := s, alertMsg := some ("Invalid JSON in headers: " ++ e) }) ∧
    (∀ (bd e : String) (hj : Json),
      jsonParse (paramOr (paramGet s.nodeParams "headers")
        (String.mk [lbrace, rbrace])) = .ok hj →
      paramGet s.nodeParams "body" = some bd → bd ≠ "" →
      jsonParse bd = .error e →
      handleParamSubmit s =
        .ok { state := s, alertMsg := some ("Invalid JSON in body: " ++ e) }) ∧
    (∀ (hj bj : Json),
      jsonParse (paramOr (paramGet s.nodeParams "headers")
        (String.mk [lbrace, rbrace])) = .ok hj →
      jsonParse (paramOr (paramGet s.nodeParams "body")
        (String.mk [lbrace, rbrace])) = .ok bj →
      validateRequiredFields s.nodeParams sel.data.label = .ok ()) ∧
    (falsyParam (paramGet s.nodeParams "headers") = true →
      jsonParse (paramOr (paramGet s.nodeParams "headers")
        (String.mk [lbrace, rbrace])) = .ok (.obj [])) ∧
    (falsyParam (paramGet s.nodeParams "body") = true →
      jsonParse (paramOr (paramGet s.nodeParams "body")
        (String.mk [lbrace, rbrace])) = .ok (.obj [])) := by
  have hobj : jsonParse (String.mk [lbrace, rbrace]) = .ok (.obj []) := rfl
  refine ⟨?_, ?_, ?_, ?_, ?_⟩
  · intro hs e hget hne herr
    have hhead := paramOr_truthy (paramGet s.nodeParams "headers")
      (String.mk [lbrace, rbrace]) hs hget hne
    simp [handleParamSubmit, hsel, validateRequiredFields, hlab, jsonIsStr, hhead, herr]
  · intro bd e hj hok hget hne herr
    have hbody := paramOr_truthy (paramGet s.nodeParams "body")
      (String.mk [lbrace, rbrace]) bd hget hne
    simp [handleParamSubmit, hsel, validateRequiredFields, hlab, jsonIsStr, hok,
      hbody, herr]
  · intro hj bj hok hbok
    simp [validateRequiredFields, hlab, jsonIsStr, hok, hbok]
  · intro hf
    rw [paramOr_falsy _ _ hf]
    exact hobj
  · intro hf
    rw [paramOr_falsy _ _ hf]
    exact hobj

/-- Witness state for C4: editing a fetch_from_rest_api_tool node whose
headers draft is not JSON. -/
def fetchState : CanvasState :=
  { nodes := [{ demoNode with
      data := { label := Json.str "fetch_from_rest_api_tool", parameters := [] } }]
    edges := []
    input := ""
    result := ""
    showModal := true
    selectedNode := some { demoNode with
      data := { label := Json.str "fetch_from_rest_api_tool", parameters := [] } }
    nodeParams := [("headers", malformedPayload)] }

/-- Witness state for C4 with valid non-empty headers and a malformed
body draft. -/
def fetchStateBadBody : CanvasState :=
  { nodes := [{ demoNode with
      data := { label := Json.str "fetch_from_rest_api_tool", parameters := [] } }]
    edges := []
    input := ""
    result := ""
    showModal := true
    selectedNode := some { demoNode with
      data := { label := Json.str "fetch_from_rest_api_tool", parameters := [] } }
    nodeParams := [("headers", "[]"), ("body", malformedPayload)] }

/-- Witness theorem for C4: the malformed headers draft is rejected
with an alert naming headers and carrying the parse error, and with
valid non-empty headers a malformed body draft is rejected with an
alert naming body. -/
theorem fetch_tool_malformed_field_submit_fails_witness :
    (handleParamSubmit fetchState =
      .ok { state := fetchState,
            alertMsg := some ("Invalid JSON in headers: " ++
              "expected string key in object") }) ∧
    (handleParamSubmit fetchStateBadBody =
      .ok { state := fetchStateBadBody,
            alertMsg := some ("Invalid JSON in body: " ++
              "expected string key in object") }) :=
  ⟨(fetch_tool_malformed_field_submit_fails fetchState
      { demoNode with
        data := { label := Json.str "fetch_from_rest_api_tool", parameters := [] } }
      rfl rfl).1 malformedPayload "expected string key in object" rfl (by decide) rfl,
    (fetch_tool_malformed_field_submit_fails fetchStateBadBody
      { demoNode with
        data := { label := Json.str "fetch_from_rest_api_tool", parameters := [] } }
      rfl rfl).2.1 malformedPayload "expected string key in object"
      (Json.arr []) rfl rfl (by decide) rfl⟩

/-- Claim C8 (confirmed): a successful parameter submit replaces the
selected node's parameter map wholesale with the draft, so the
subsequently saved document reports exactly the last-submitted map for
every node carrying the selected id, and every other node verbatim. -/
theorem submit_replaces_parameters_wholesale (s : CanvasState) (sel : Node)
    (out : SubmitOutcome)
    (hsel : s.selectedNode = some sel)
    (hval : validateRequiredFields s.nodeParams sel.data.label = .ok ())
    (hout : handleParamSubmit s = .ok out) :
    out.alertMsg = none ∧
    ∀ (i : Nat) (n : Node), (saveWorkflowBody s).nodes[i]? = some n →
      (saveWorkflowBody out.state).nodes[i]? =
        some (if n.id = sel.id then
          { n with data := { n.data with parameters := s.nodeParams } }
        else n) := by
  simp only [handleParamSubmit, hsel, hval, Except.ok.injEq] at hout
  subst hout
  refine ⟨rfl, ?_⟩
  intro i n h
  simp only [saveWorkflowBody] at h ⊢
  simp only [List.getElem?_map, h, Option.map_some']

/-- Witness state for C8: the search_tool node is selected and a fresh
draft map is submitted. -/
def paramState : CanvasState :=
  { nodes := [demoNode]
    edges := []
    input := ""
    result := ""
    showModal := true
    selectedNode := some demoNode
    nodeParams := [("k", "v")] }

/-- Outcome of the witness submit, written out literally. -/
def paramSubmitOut : SubmitOutcome :=
  { state :=
      { nodes := [{ demoNode with
          data := { demoNode.data with parameters := [("k", "v")] } }]
        edges := []
        input := ""
        result := ""
        showModal := false
        selectedNode := none
        nodeParams := [] }
    alertMsg := none }

/-- Witness theorem for C8 at the concrete submit: the saved document
reports exactly the submitted map for the node. -/
theorem submit_replaces_parameters_wholesale_witness :
    (saveWorkflowBody paramSubmitOut.state).nodes[0]? =
      some (if demoNode.id = demoNode.id then
        { demoNode with data := { demoNode.data with parameters := [("k", "v")] } }
      else demoNode) :=
  (submit_replaces_parameters_wholesale paramState demoNode paramSubmitOut
    rfl rfl rfl).2 0 demoNode rfl

/-- Claim C5 counterexample: after a node_processing event the runtime
status overlay (style.backgroundColor) is part of the node record, and
saveWorkflow posts the node verbatim, so the persisted document carries
the overlay — refuting the claim that the saved document contains only
position, parameters, toolName and id with no runtime status in any
form. -/
theorem save_includes_runtime_overlay_cex :
    ((saveWorkflowBody demoStateAfterProcessing).nodes.map
      fun n => n.style.backgroundColor) = [some "yellow"] := rfl

/-- Claim C5 (corrected): saveWorkflow posts the component's node and
edge arrays verbatim under the fixed workflow id, so each saved node
carries all of its fields — id, type, data (label and parameters),
position, and style, including any runtime status overlay present at
save time. -/
theorem save_payload_verbatim (s : CanvasState) :
    (saveWorkflowBody s).id = "workflow1" ∧
    (saveWorkflowBody s).edges = s.edges ∧
    ∀ (i : Nat) (n : Node), s.nodes[i]? = some n →
      (saveWorkflowBody s).nodes[i]? = some n :=
  ⟨rfl, rfl, fun _ _ h => h⟩

/-- Witness for the corrected C5: the yellow overlay written by the
executor's processing event appears in the saved document. -/
theorem save_payload_verbatim_witness :
    (saveWorkflowBody demoStateAfterProcessing).nodes[0]? =
      some { demoNode with style := { backgroundColor := some "yellow" } } :=
  (save_payload_verbatim demoStateAfterProcessing).2.2 0
    { demoNode with style := { backgroundColor := some "yellow" } } rfl

/-- Claim C6 counterexample: a drop whose payload text is present but
not well-formed JSON is not a silent no-op — JSON.parse throws, so the
handler raises instead of returning a state. -/
theorem drop_malformed_payload_throws_cex :
    onDrop malformedPayload { x := 100, y := 100 } "id-1" demoState =
      .error ("SyntaxError: " ++ "expected string key in object") := rfl

/-- Claim C6 (corrected): a drop whose transfer key is absent (getData
yields the empty string) is a silent no-op leaving the state unchanged;
but a non-empty payload that fails JSON parsing makes the handler throw
the parse error — no node is inserted in either case. -/
theorem drop_empty_noop_and_bad_json_throws (s : CanvasState) (pos : Position)
    (uid : String) :
    onDrop "" pos uid s = .ok s ∧
    ∀ (payload e : String), payload ≠ "" → jsonParse payload = .error e →
      onDrop payload pos uid s = .error ("SyntaxError: " ++ e) := by
  constructor
  · rfl
  · intro payload e hne herr
    simp [onDrop, hne, herr]

/-- Witness for the corrected C6: the empty payload is dropped silently
and the concrete malformed payload throws. -/
theorem drop_empty_noop_and_bad_json_throws_witness :
    onDrop "" { x := 0, y := 0 } "id-2" demoState = .ok demoState ∧
    onDrop malformedPayload { x := 0, y := 0 } "id-2" demoState =
      .error ("SyntaxError: " ++ "expected string key in object") :=
  ⟨(drop_empty_noop_and_bad_json_throws demoState { x := 0, y := 0 } "id-2").1,
    (drop_empty_noop_and_bad_json_throws demoState { x := 0, y := 0 } "id-2").2
      malformedPayload "expected string key in object" (by decide) rfl⟩

/-- Decimal digit list of a natural number, most significant first,
matching what the decimal rendering in a template literal produces. -/
def natDigits (n : Nat) : List Char :=
  if _h : n < 10 then [Nat.digitChar n]
  else natDigits (n / 10) ++ [Nat.digitChar (n % 10)]
decreasing_by exact Nat.div_lt_self (by omega) (by omega)

/-- Helper: a single decimal digit character is never the dash. -/
theorem digitChar_ne_dash (k : Nat) (hk : k < 10) : Nat.digitChar k ≠ '-' := by
  interval_cases k <;> decide

/-- Helper: the code point of a decimal digit character. -/
theorem digitChar_toNat (k : Nat) (hk : k < 10) : (Nat.digitChar k).toNat = 48 + k := by
  interval_cases k <;> decide

/-- Helper: the fuelled digit-rendering loop used by Nat.repr agrees
with natDigits whenever the fuel exceeds the number. -/
theorem toDigitsCore_eq_natDigits (fuel : Nat) :
    ∀ (n : Nat) (ds : List Char), n < fuel →
      Nat.toDigitsCore 10 fuel n ds = natDigits n ++ ds := by
  induction fuel with
  | zero => intro n ds h; omega
  | succ f ih =>
    intro n ds h
    rw [Nat.toDigitsCore]
    by_cases h0 : n / 10 = 0
    · have hn : n < 10 := by omega
      rw [if_pos h0, natDigits, dif_pos hn]
      have : n % 10 = n := Nat.mod_eq_of_lt hn
      rw [this]
      rfl
    · have hn : ¬ n < 10 := by omega
      have hdiv : n / 10 < f := by omega
      have hrhs : natDigits n = natDigits (n / 10) ++ [Nat.digitChar (n % 10)] := by
        conv_lhs => rw [natDigits]
        rw [dif_neg hn]
      rw [if_neg h0, ih (n / 10) _ hdiv, hrhs, List.append_assoc]
      rfl

/-- Helper: Nat.repr renders exactly the digit list of natDigits. -/
theorem repr_eq_natDigits (n : Nat) : Nat.repr n = String.mk (natDigits n) := by
  have h := toDigitsCore_eq_natDigits (n + 1) n [] (Nat.lt_succ_self n)
  simp only [Nat.repr, Nat.toDigits, h, List.append_nil, List.asString]

/-- Helper: the dash never occurs among decimal digits. -/
theorem natDigits_ne_dash (n : Nat) : ∀ c ∈ natDigits n, c ≠ '-' := by
  induction n using Nat.strong_induction_on with
  | _ n ih =>
    intro c hc
    by_cases h : n < 10
    · rw [natDigits, dif_pos h] at hc
      rcases List.mem_singleton.mp hc with rfl
      exact digitChar_ne_dash n h
    · rw [natDigits, dif_neg h] at hc
      rcases List.mem_append.mp hc with h1 | h1
      · exact ih (n / 10) (Nat.div_lt_self (by omega) (by omega)) c h1
      · rcases List.mem_singleton.mp h1 with rfl
        exact digitChar_ne_dash (n % 10) (Nat.mod_lt n (by omega))

/-- Helper: folding the decimal digits of n back into a number under
any accumulator recovers n in the low part. -/
theorem natDigits_foldl (n : Nat) :
    ∀ a, List.foldl (fun a c => a * 10 + (c.toNat - 48)) a (natDigits n) =
      a * 10 ^ (natDigits n).length + n := by
  induction n using Nat.strong_induction_on with
  | _ n ih =>
    intro a
    by_cases h : n < 10
    · rw [natDigits, dif_pos h]
      simp [List.foldl, digitChar_toNat n h]
    · have hdiv : n / 10 < n := Nat.div_lt_self (by omega) (by omega)
      rw [natDigits, dif_neg h, List.foldl_append, ih (n / 10) hdiv a]
      have hmod : n % 10 < 10 := Nat.mod_lt n (by omega)
      simp only [List.foldl, List.length_append, List.length_singleton,
        digitChar_toNat (n % 10) hmod]
      have hpow : 10 ^ ((natDigits (n / 10)).length + 1) =
          10 ^ (natDigits (n / 10)).length * 10 := pow_succ 10 _
      rw [hpow]
      have hsplit : n / 10 * 10 + n % 10 = n := by omega
      ring_nf
      omega

/-- Helper: decimal digit lists are injective. -/
theorem natDigits_injective (m n : Nat) (h : natDigits m = natDigits n) : m = n := by
  have hm := natDigits_foldl m 0
  have hn := natDigits_foldl n 0
  rw [h] at hm
  omega

/-- Helper: splitting two equal lists at a dash that occurs in neither
prefix identifies both the prefixes and the suffixes. -/
theorem append_dash_inj (a1 : List Char) :
    ∀ (a2 b1 b2 : List Char), (∀ c ∈ a1, c ≠ '-') → (∀ c ∈ a2, c ≠ '-') →
      a1 ++ '-' :: b1 = a2 ++ '-' :: b2 → a1 = a2 ∧ b1 = b2 := by
  induction a1 with
  | nil =>
    intro a2 b1 b2 _ h2 heq
    cases a2 with
    | nil =>
      simp only [List.nil_append, List.cons.injEq] at heq
      exact ⟨rfl, heq.2⟩
    | cons c t =>
      simp only [List.nil_append, List.cons_append, List.cons.injEq] at heq
      exact absurd heq.1.symm (h2 c (List.mem_cons_self c t))
  | cons c t ih =>
    intro a2 b1 b2 h1 h2 heq
    cases a2 with
    | nil =>
      simp only [List.cons_append, List.nil_append, List.cons.injEq] at heq
      exact absurd heq.1 (h1 c (List.mem_cons_self c t))
    | cons d t2 =>
      simp only [List.cons_append, List.cons.injEq] at heq
      have ht := ih t2 b1 b2 (fun x hx => h1 x (List.mem_cons_of_mem c hx))
        (fun x hx => h2 x (List.mem_cons_of_mem d hx)) heq.2
      exact ⟨by rw [heq.1, ht.1], ht.2⟩

/-- Claim C9 counterexample: two node creations within the same
timestamp tick for which Math.random happens to produce the same
base-36 suffix yield the same id, so ids generated over a session are
not always unique. -/
theorem unique_id_collision_cex :
    ¬ (sessionIds [(100, "a1b2c3d4e"), (100, "a1b2c3d4e")]).Nodup := by
  decide

/-- Claim C9 (corrected): two generated ids collide exactly when both
the timestamp tick and the random base-36 suffix coincide; distinct
suffixes within the same tick, or distinct ticks, always give distinct
ids — uniqueness is a heuristic resting on the random suffix, not a
guarantee. -/
theorem unique_id_collision_iff (t1 t2 : Nat) (s1 s2 : String) :
    uniqueIdOf t1 s1 = uniqueIdOf t2 s2 ↔ (t1 = t2 ∧ s1 = s2) := by
  constructor
  · intro h
    have hd : (Nat.repr t1).data ++ '-' :: s1.data =
        (Nat.repr t2).data ++ '-' :: s2.data := by
      have hdata := congrArg String.data h
      simpa [uniqueIdOf, String.data_append] using hdata
    rw [repr_eq_natDigits t1, repr_eq_natDigits t2] at hd
    have hsplit := append_dash_inj (natDigits t1) (natDigits t2) s1.data s2.data
      (natDigits_ne_dash t1) (natDigits_ne_dash t2) hd
    exact ⟨natDigits_injective t1 t2 hsplit.1, String.ext hsplit.2⟩
  · rintro ⟨rfl, rfl⟩
    rfl

end Xyflow
